import Mathlib

/-!
Verification development for the crinita static-site generator.

The definitions below are a shallow embedding of the Python sources:
  - src/crinita/entity_list.py (EntityList: pagination URLs and slices)
  - src/crinita/tag.py (Tag dataclass)
  - src/crinita/sites.py (Sites: construction, indexing, homepage, JSON)
  - src/crinita/config.py (pagination defaults)

Python data is modelled as follows: optional strings are Option String,
datetime values are Int timestamps (only their total order matters),
insertion-ordered dicts are association lists, sets are modelled through
List.dedup, and fallible constructors return Except.
-/

namespace Crinita

/-! ### Stable sorting, modelling Python sorted()

Python's sorted(xs, key=k) is a stable ascending sort by key;
sorted(xs, key=k, reverse=True) is a stable descending sort.  Insertion
sort below is extensionally equal to any stable sort with the same
comparison, hence a faithful model. -/

/-- Insert x into l, keeping every element whose key is strictly smaller
ahead of x; because x always comes from later in the original list, this
realises stability for an ascending sort. -/
def insertAsc {K : Type} [LinearOrder K] (key : α → K) (x : α) : List α → List α
  | [] => [x]
  | y :: ys => if key y < key x then y :: insertAsc key x ys else x :: y :: ys

/-- Stable ascending sort by key; models Python sorted(xs, key=k). -/
def sortAsc {K : Type} [LinearOrder K] (key : α → K) : List α → List α
  | [] => []
  | x :: xs => insertAsc key x (sortAsc key xs)

/-- Stable descending sort by key; models sorted(xs, key=k, reverse=True). -/
def sortDescBy {K : Type} [LinearOrder K] (key : α → K) (l : List α) : List α :=
  sortAsc (fun a => OrderDual.toDual (key a)) l

/-! ### Tags (src/crinita/tag.py)

Tag is a @dataclass with fields name and url_alias.  The dataclass
machinery generates an equality that compares both fields; the class
explicitly overrides only the hash, which hashes url_alias alone.  A
Python dict locates a key through its hash bucket and then the generated
equality, so two Tag values are the same dict key exactly when both
fields agree (equal values always land in the same bucket because equal
aliases hash equally). -/

structure Tag where
  name : String
  url_alias : String
deriving DecidableEq

/-- Models Tag.__hash__, which returns self.url_alias.__hash__(): the hash
input is the url_alias alone. -/
def tagHashInput (t : Tag) : String := t.url_alias

/-! ### Tag indexes (src/crinita/sites.py, Sites._process_entity_list)

The Python code builds defaultdict(int) and defaultdict(list) keyed by
Tag.  Python dicts keep insertion order, so the model is an association
list: updating an existing key keeps its position, a new key is appended
at the end. -/

/-- Models tag_to_entity_incidence[tag] += 1 on a defaultdict(int). -/
def bump (t : Tag) : List (Tag × Nat) → List (Tag × Nat)
  | [] => [(t, 1)]
  | (k, v) :: rest => if k = t then (k, v + 1) :: rest else (k, v) :: bump t rest

/-- Models tag_to_entity[tag].append(entity) on a defaultdict(list). -/
def appendEnt {α : Type} (t : Tag) (e : α) : List (Tag × List α) → List (Tag × List α)
  | [] => [(t, [e])]
  | (k, v) :: rest => if k = t then (k, v ++ [e]) :: rest else (k, v) :: appendEnt t e rest

/-- The incidence dict in insertion order, before sorting: the nested loop
of Sites._process_entity_list over entities and their tags. -/
def tagToIncidenceRaw {α : Type} (tagsOf : α → List Tag) (es : List α) : List (Tag × Nat) :=
  es.foldl (fun m e => (tagsOf e).foldl (fun m t => bump t m) m) []

/-- Models the final incidence dict of Sites._process_entity_list: the raw
dict re-built sorted by count, descending (sorted(..., key=item[1],
reverse=True), which is stable). -/
def tagToIncidence {α : Type} (tagsOf : α → List Tag) (es : List α) : List (Tag × Nat) :=
  sortDescBy (fun kv => kv.2) (tagToIncidenceRaw tagsOf es)

/-- The tag-to-entities dict of Sites._process_entity_list, with each
per-tag list re-sorted by date descending. -/
def tagToEntities {α : Type} (tagsOf : α → List Tag) (dateOf : α → Int) (es : List α) :
    List (Tag × List α) :=
  ((es.foldl (fun m e => (tagsOf e).foldl (fun m t => appendEnt t e m) m) []).map
    (fun kv => (kv.1, sortDescBy dateOf kv.2)))

/-- Count held under key t, 0 when absent; dict lookup resolves a key by
hash and generated equality, i.e. by full structural equality on Tag. -/
def cntOf (m : List (Tag × Nat)) (t : Tag) : Nat :=
  match m with
  | [] => 0
  | (k, v) :: rest => if k = t then v else cntOf rest t

/-! ### Pagination (src/crinita/entity_list.py and src/crinita/config.py) -/

/-- Config.pagination_prefix default (config.py): applies only when
url_alias is not None. -/
def paginationPre : String := "-"

/-- Config.pagination_suffix default (config.py). -/
def paginationSuf : String := "page-"

/-- Config.pagination_max_item_per_page default (config.py). -/
def paginationMaxItemPerPage : Nat := 7

/-- Mathematical ceiling division: math.ceil(n / s) for a positive page
size s. -/
def ceilDiv (n s : Nat) : Nat := (n + s - 1) / s

/-- EntityList.number_of_pages, set in EntityList._set_url_list:
math.ceil(len(list_of_entities) / Config.pagination_max_item_per_page).
There is no minimum of one: an empty entity list yields 0. -/
def number_of_pages (n s : Nat) : Nat := ceilDiv n s

/-- The root_of_pagination_url local of EntityList._set_url_list: the
pagination suffix, preceded by url_alias and the pagination separator
only when url_alias is not None. -/
def pagRoot (url_alias : Option String) (pre suf : String) : String :=
  match url_alias with
  | some a => a ++ pre ++ suf
  | none => suf

/-- EntityList.url_list as built by _set_url_list: the url_alias itself
(possibly None) for page 0, then root + str(page_nr) for page_nr in
range(1, number_of_pages). -/
def url_list (url_alias : Option String) (pre suf : String) (n s : Nat) :
    List (Option String) :=
  url_alias :: (List.range' 1 (number_of_pages n s - 1)).map
    (fun p => some (pagRoot url_alias pre suf ++ toString p))

/-- Python slicing xs[a:b] for natural a and b: the elements at indices
a up to (excluding) b. -/
def pySlice {α : Type} (xs : List α) (a b : Nat) : List α := (xs.take b).drop a

/-- EntityList.generate_entities: the selection slice
list_of_entities[p * size : min((p + 1) * size, len(list_of_entities))]. -/
def generate_entities {α : Type} (es : List α) (s p : Nat) : List α :=
  pySlice es (p * s) (min ((p + 1) * s) es.length)

/-! ### Content entities (src/crinita/page.py, article.py, dataset.py) -/

structure Page where
  title : String
  url_alias : Option String
  large_image_path : Option String
  content : String
  menu_position : Option Int
deriving DecidableEq

structure Article where
  title : String
  url_alias : Option String
  large_image_path : Option String
  small_image_path : Option String
  date : Int
  lead : String
  content : String
  tags : List Tag
deriving DecidableEq

structure DataEntity where
  title : String
  data_link : String
  description : Option String
  license : Option String
  icon : Option String
  extension : Option String
deriving DecidableEq

structure Dataset where
  title : String
  url_alias : Option String
  date : Int
  lead : String
  content : String
  tags : List Tag
  data_entities : List DataEntity
  data_source : Option String
  maintainer : Option String
  license : Option String
  large_image_path : Option String
  small_image_path : Option String
deriving DecidableEq

/-- An element of the heterogeneous list_of_entities passed to
Sites.__init__. -/
inductive SiteEntity
  | page (p : Page)
  | article (a : Article)
  | dataset (d : Dataset)
deriving DecidableEq

def SiteEntity.url_alias : SiteEntity → Option String
  | .page p => p.url_alias
  | .article a => a.url_alias
  | .dataset d => d.url_alias

/-- The isinstance(ent, Page) partition of Sites.__init__. -/
def pagesOf (es : List SiteEntity) : List Page :=
  es.filterMap (fun e =>
    match e with
    | .page p => some p
    | _ => none)

/-- The isinstance(ent, Article) partition of Sites.__init__. -/
def articlesOf (es : List SiteEntity) : List Article :=
  es.filterMap (fun e =>
    match e with
    | .article a => some a
    | _ => none)

/-- The isinstance(ent, Dataset) partition of Sites.__init__. -/
def datasetsOf (es : List SiteEntity) : List Dataset :=
  es.filterMap (fun e =>
    match e with
    | .dataset d => some d
    | _ => none)

/-- The page sort key of Sites.__init__:
x.menu_position if x.menu_position else -1.  Both None and 0 are falsy in
Python, so both map to -1. -/
def pageSortKey (p : Page) : Int :=
  match p.menu_position with
  | none => -1
  | some v => if v = 0 then -1 else v

/-- The URL-alias list aggregated for the uniqueness sanity check of
Sites.__init__, in processing order: article urls, then dataset urls,
then page urls.  None aliases participate like any other value. -/
def allAliases (es : List SiteEntity) : List (Option String) :=
  (articlesOf es).map Article.url_alias ++ (datasetsOf es).map Dataset.url_alias ++
    (pagesOf es).map Page.url_alias

/-- The errors Sites can raise in the modelled fragment: the ValueError
(Not all URLs are unique!) of Sites.__init__ and the ValueError (there
are at least two homepages) of Sites.homepage. -/
inductive SitesError
  | notAllUrlsUnique
  | multipleHomepages
deriving DecidableEq

/-- The state of a constructed Sites object (src/crinita/sites.py):
template names plus the derived sorted collections and tag indexes. -/
structure Sites where
  article_tag_cloud_template : String
  dataset_tag_cloud_template : String
  menu_template : String
  recent_posts_template : String
  recent_datasets_template : String
  text_sections_in_right_menu_template : String
  layout_template : String
  list_of_articles : List Article
  list_of_datasets : List Dataset
  list_of_pages : List Page
  tag_to_articles : List (Tag × List Article)
  tag_to_articles_incidence : List (Tag × Nat)
  tag_to_datasets : List (Tag × List Dataset)
  tag_to_datasets_incidence : List (Tag × Nat)
deriving DecidableEq

/-- The state Sites.__init__ stores when a construction succeeds:
articles and datasets sorted by date descending, pages sorted by the
menu-position key ascending, tag indexes built from the sorted lists. -/
def sitesBuild (list_of_entities : List SiteEntity)
    (article_tag_cloud_template dataset_tag_cloud_template menu_template
      recent_posts_template recent_datasets_template
      text_sections_in_right_menu_template layout_template : String) : Sites :=
  { article_tag_cloud_template := article_tag_cloud_template
    dataset_tag_cloud_template := dataset_tag_cloud_template
    menu_template := menu_template
    recent_posts_template := recent_posts_template
    recent_datasets_template := recent_datasets_template
    text_sections_in_right_menu_template := text_sections_in_right_menu_template
    layout_template := layout_template
    list_of_articles := sortDescBy Article.date (articlesOf list_of_entities)
    list_of_datasets := sortDescBy Dataset.date (datasetsOf list_of_entities)
    list_of_pages := sortAsc pageSortKey (pagesOf list_of_entities)
    tag_to_articles := tagToEntities Article.tags Article.date
      (sortDescBy Article.date (articlesOf list_of_entities))
    tag_to_articles_incidence := tagToIncidence Article.tags
      (sortDescBy Article.date (articlesOf list_of_entities))
    tag_to_datasets := tagToEntities Dataset.tags Dataset.date
      (sortDescBy Dataset.date (datasetsOf list_of_entities))
    tag_to_datasets_incidence := tagToIncidence Dataset.tags
      (sortDescBy Dataset.date (datasetsOf list_of_entities)) }

/-- Sites.__init__: partition the entities, sort and index them through
sitesBuild, and, when check_url_unique holds, fail with the
Not-all-URLs-unique ValueError if the set of all aliases is smaller than
their total number (len(all_urls) != number_of_elements, with all_urls a
set and None participating like any value). -/
def Sites.init (list_of_entities : List SiteEntity) (check_url_unique : Bool)
    (article_tag_cloud_template dataset_tag_cloud_template menu_template
      recent_posts_template recent_datasets_template
      text_sections_in_right_menu_template layout_template : String) :
    Except SitesError Sites :=
  if check_url_unique &&
      ((allAliases list_of_entities).dedup.length != (allAliases list_of_entities).length) then
    .error .notAllUrlsUnique
  else
    .ok (sitesBuild list_of_entities article_tag_cloud_template
      dataset_tag_cloud_template menu_template recent_posts_template
      recent_datasets_template text_sections_in_right_menu_template
      layout_template)

/-- The value returned by the Sites.homepage property: either a concrete
entity whose url_alias is None, or the synthesized blog listing
generate_blog(None, None) over all articles. -/
inductive Homepage
  | fromPage (p : Page)
  | fromArticle (a : Article)
  | fromDataset (d : Dataset)
  | blogListing (arts : List Article)
deriving DecidableEq

/-- One scanning loop of Sites.homepage: walk the list, remember the
first entity with url_alias None, and fail with the multiple-homepages
ValueError on meeting a second one while the accumulator is occupied. -/
def scanHp {α : Type} (aliasOf : α → Option String) (inj : α → Homepage) :
    Option Homepage → List α → Except SitesError (Option Homepage)
  | acc, [] => .ok acc
  | acc, x :: xs =>
      if (aliasOf x).isNone then
        match acc with
        | some _ => .error .multipleHomepages
        | none => scanHp aliasOf inj (some (inj x)) xs
      else scanHp aliasOf inj acc xs

/-- Sites.homepage: scan pages, then articles, then datasets for a None
url_alias; a second hit is fatal; no hit synthesizes the blog listing of
all articles. -/
def Sites.homepage (s : Sites) : Except SitesError Homepage :=
  match scanHp Page.url_alias Homepage.fromPage none s.list_of_pages with
  | .error e => .error e
  | .ok acc1 =>
    match scanHp Article.url_alias Homepage.fromArticle acc1 s.list_of_articles with
    | .error e => .error e
    | .ok acc2 =>
      match scanHp Dataset.url_alias Homepage.fromDataset acc2 s.list_of_datasets with
      | .error e => .error e
      | .ok (some h) => .ok h
      | .ok none => .ok (.blogListing s.list_of_articles)

/-- Sites.list_of_pages_in_menu: return self._list_of_pages[i:] for the
first index i whose page has a non-None menu_position, else []. -/
def pagesInMenu : List Page → List Page
  | [] => []
  | p :: ps => if p.menu_position.isSome then p :: ps else pagesInMenu ps

def Sites.list_of_pages_in_menu (s : Sites) : List Page :=
  pagesInMenu s.list_of_pages

/-- The menu contract in the words of the specification: the suffix of
the page list starting at the first page whose menu_position is non-null
(the whole-list drop at the found index), empty when no page qualifies.
Stated independently of the program code for comparison in C9. -/
def menuSuffixSpec (pages : List Page) : List Page :=
  pages.drop (pages.findIdx (fun p => p.menu_position.isSome))

/-! ### JSON serialization (src/crinita/sites.py: Sites.json,
Sites.object_from_json, Sites.sites_from_json)

The per-entity dictionaries produced by page.json / article.json /
dataset.json live on the Entity base class in src/crinita/entity.py,
which is absent from src/.  They are therefore modelled from the spec
(sections 3 and 4.4): each entity serializes to a dictionary of its own
field set plus an object_type discriminator; tags serialize as
(name, url_alias) pairs, dates as ISO-8601 strings (modelled as the Int
timestamp, a lossless encoding for the whole-second datetimes the
deserializer accepts), nested data entities as their field dictionaries.
The discriminator is modelled as the constructor of EntityJson, which is
what the match on object_type in Sites.object_from_json dispatches on. -/

/-- Modelled from the spec: the dictionary page.json produces (Entity in
src/crinita/entity.py is missing from src/); its keys are the Page field
set of section 3. -/
structure PageJson where
  title : String
  url_alias : Option String
  large_image_path : Option String
  content : String
  menu_position : Option Int
deriving DecidableEq

/-- Modelled from the spec: the dictionary article.json produces, the
Article field set of section 3 with tags as (name, url_alias) pairs and
the date as a lossless scalar encoding. -/
structure ArticleJson where
  title : String
  url_alias : Option String
  large_image_path : Option String
  small_image_path : Option String
  date : Int
  lead : String
  content : String
  tags : List Tag
deriving DecidableEq

/-- Modelled from the spec: the dictionary dataset.json produces, the
Dataset field set of section 3 with nested data-entity dictionaries. -/
structure DatasetJson where
  title : String
  url_alias : Option String
  date : Int
  lead : String
  content : String
  tags : List Tag
  data_entities : List DataEntity
  data_source : Option String
  maintainer : Option String
  license : Option String
  large_image_path : Option String
  small_image_path : Option String
deriving DecidableEq

/-- A serialized entity dictionary together with its object_type
discriminator (the constructor). -/
inductive EntityJson
  | page (d : PageJson)
  | article (d : ArticleJson)
  | dataset (d : DatasetJson)
deriving DecidableEq

/-- Modelled from the spec: page.json (Entity.json is in the missing
src/crinita/entity.py); field-for-field export of the Page fields. -/
def Page.toJsonDict (p : Page) : PageJson :=
  { title := p.title
    url_alias := p.url_alias
    large_image_path := p.large_image_path
    content := p.content
    menu_position := p.menu_position }

/-- Modelled from the spec: article.json; field-for-field export of the
Article fields. -/
def Article.toJsonDict (a : Article) : ArticleJson :=
  { title := a.title
    url_alias := a.url_alias
    large_image_path := a.large_image_path
    small_image_path := a.small_image_path
    date := a.date
    lead := a.lead
    content := a.content
    tags := a.tags }

/-- Modelled from the spec: dataset.json; field-for-field export of the
Dataset fields. -/
def Dataset.toJsonDict (d : Dataset) : DatasetJson :=
  { title := d.title
    url_alias := d.url_alias
    date := d.date
    lead := d.lead
    content := d.content
    tags := d.tags
    data_entities := d.data_entities
    data_source := d.data_source
    maintainer := d.maintainer
    license := d.license
    large_image_path := d.large_image_path
    small_image_path := d.small_image_path }

/-- Sites.object_from_json: dispatch on the object_type discriminator and
rebuild the concrete entity from the dictionary fields (tags rebuilt as
Tag(**tag_dict), the date parsed back, data entities rebuilt). -/
def objectFromJson : EntityJson → SiteEntity
  | .page d => .page
      { title := d.title
        url_alias := d.url_alias
        large_image_path := d.large_image_path
        content := d.content
        menu_position := d.menu_position }
  | .article d => .article
      { title := d.title
        url_alias := d.url_alias
        large_image_path := d.large_image_path
        small_image_path := d.small_image_path
        date := d.date
        lead := d.lead
        content := d.content
        tags := d.tags }
  | .dataset d => .dataset
      { title := d.title
        url_alias := d.url_alias
        date := d.date
        lead := d.lead
        content := d.content
        tags := d.tags
        data_entities := d.data_entities
        data_source := d.data_source
        maintainer := d.maintainer
        license := d.license
        large_image_path := d.large_image_path
        small_image_path := d.small_image_path }

/-- The JSON document Sites.json emits: every non-underscore attribute of
the instance (the seven template names) plus list_of_entities holding the
serialized pages, then articles, then datasets, in their stored sorted
order.  Derived collections (underscore attributes: sorted lists and tag
indexes) are not stored. -/
structure SitesJson where
  article_tag_cloud_template : String
  dataset_tag_cloud_template : String
  menu_template : String
  recent_posts_template : String
  recent_datasets_template : String
  text_sections_in_right_menu_template : String
  layout_template : String
  list_of_entities : List EntityJson
deriving DecidableEq

/-- Sites.json (field-for-field content of the emitted document). -/
def Sites.toJson (s : Sites) : SitesJson :=
  { article_tag_cloud_template := s.article_tag_cloud_template
    dataset_tag_cloud_template := s.dataset_tag_cloud_template
    menu_template := s.menu_template
    recent_posts_template := s.recent_posts_template
    recent_datasets_template := s.recent_datasets_template
    text_sections_in_right_menu_template := s.text_sections_in_right_menu_template
    layout_template := s.layout_template
    list_of_entities :=
      s.list_of_pages.map (fun p => EntityJson.page p.toJsonDict) ++
      s.list_of_articles.map (fun a => EntityJson.article a.toJsonDict) ++
      s.list_of_datasets.map (fun d => EntityJson.dataset d.toJsonDict) }

/-- Sites.sites_from_json: rebuild every entity with object_from_json and
call the constructor with the remaining keyword arguments; the
check_url_unique keyword is not serialized, so the constructor runs with
its default True. -/
def sitesFromJson (j : SitesJson) : Except SitesError Sites :=
  Sites.init (j.list_of_entities.map objectFromJson) true
    j.article_tag_cloud_template j.dataset_tag_cloud_template j.menu_template
    j.recent_posts_template j.recent_datasets_template
    j.text_sections_in_right_menu_template j.layout_template

/-! ### Concrete inputs used by counterexamples and witnesses -/

/-- A page with a null url_alias (a homepage candidate). -/
def pageHomeA : Page :=
  { title := "home-a", url_alias := none, large_image_path := none,
    content := "ca", menu_position := none }

/-- A second page with a null url_alias. -/
def pageHomeB : Page :=
  { title := "home-b", url_alias := none, large_image_path := none,
    content := "cb", menu_position := none }

/-- An article with a null url_alias. -/
def articleHome : Article :=
  { title := "art-home", url_alias := none, large_image_path := none,
    small_image_path := none, date := 5, lead := "l", content := "c",
    tags := [] }

/-- A page with menu_position 0. -/
def pageZero : Page :=
  { title := "zero", url_alias := some "zero", large_image_path := none,
    content := "", menu_position := some 0 }

/-- A page with a positive menu_position. -/
def pagePos : Page :=
  { title := "pos", url_alias := some "pos", large_image_path := none,
    content := "", menu_position := some 5 }

/-- A page without a menu_position. -/
def pageNoMenu : Page :=
  { title := "nomenu", url_alias := some "nomenu", large_image_path := none,
    content := "", menu_position := none }

/-- An article tagged with name A, alias x. -/
def articleTagA : Article :=
  { title := "a1", url_alias := some "a1", large_image_path := none,
    small_image_path := none, date := 2, lead := "", content := "",
    tags := [⟨"A", "x"⟩] }

/-- An article tagged with name B and the same alias x. -/
def articleTagB : Article :=
  { title := "a2", url_alias := some "a2", large_image_path := none,
    small_image_path := none, date := 1, lead := "", content := "",
    tags := [⟨"B", "x"⟩] }

/-- A second page with a larger positive menu_position. -/
def pagePosBig : Page :=
  { title := "pos-big", url_alias := some "pos-big", large_image_path := none,
    content := "", menu_position := some 7 }

/-- The number of entities whose url_alias is None (homepage candidates). -/
def nullCount (es : List SiteEntity) : Nat :=
  es.countP (fun e => e.url_alias.isNone)

/-- How much of the single homepage slot the scanning accumulator of
Sites.homepage occupies. -/
def hpWeight (acc : Option Homepage) : Nat :=
  if acc.isSome then 1 else 0

/-- Entity list with two null-alias pages (claim C3). -/
def entsC3 : List SiteEntity := [.page pageHomeA, .page pageHomeB]

/-- Entity list with a null-alias page and a null-alias article while all
non-null aliases are (vacuously) pairwise distinct (claim C4). -/
def entsC4 : List SiteEntity := [.page pageHomeA, .article articleHome]

/-- Pages with positions 5, 0 and 7, exercising the menu-position sort
key (claim C10). -/
def pagesC10 : List Page := [pagePos, pageZero, pagePosBig]

/-- A small valid entity set (distinct aliases) for the serialization
round-trip witness (claim C8). -/
def entsC8 : List SiteEntity := [.page pagePos, .article articleTagA]

end Crinita

namespace Crinita

/-! ### Lemmas about the stable sort -/

theorem insertAsc_perm {K : Type} [LinearOrder K] (key : α → K) (x : α) :
    ∀ l : List α, (insertAsc key x l).Perm (x :: l)
  | [] => List.Perm.refl _
  | y :: ys => by
      unfold insertAsc
      by_cases h : key y < key x
      · simp only [if_pos h]
        exact ((insertAsc_perm key x ys).cons y).trans (List.Perm.swap x y ys)
      · simp only [if_neg h]
        exact List.Perm.refl _

theorem sortAsc_perm {K : Type} [LinearOrder K] (key : α → K) :
    ∀ l : List α, (sortAsc key l).Perm l
  | [] => List.Perm.refl _
  | x :: xs => (insertAsc_perm key x (sortAsc key xs)).trans ((sortAsc_perm key xs).cons x)

theorem insertAsc_pairwise {K : Type} [LinearOrder K] (key : α → K) (x : α) :
    ∀ l : List α, l.Pairwise (fun a b => key a ≤ key b) →
      (insertAsc key x l).Pairwise (fun a b => key a ≤ key b)
  | [], _ => List.pairwise_singleton _ x
  | y :: ys, h => by
      rcases List.pairwise_cons.mp h with ⟨hy, hys⟩
      unfold insertAsc
      by_cases hk : key y < key x
      · simp only [if_pos hk]
        refine List.pairwise_cons.mpr ⟨?_, insertAsc_pairwise key x ys hys⟩
        intro b hb
        rcases List.mem_cons.mp ((insertAsc_perm key x ys).mem_iff.mp hb) with hb | hb
        · exact hb ▸ le_of_lt hk
        · exact hy b hb
      · simp only [if_neg hk]
        refine List.pairwise_cons.mpr ⟨?_, h⟩
        intro b hb
        rcases List.mem_cons.mp hb with hb | hb
        · exact hb ▸ le_of_not_lt hk
        · exact le_trans (le_of_not_lt hk) (hy b hb)

theorem sortAsc_pairwise {K : Type} [LinearOrder K] (key : α → K) :
    ∀ l : List α, (sortAsc key l).Pairwise (fun a b => key a ≤ key b)
  | [] => List.Pairwise.nil
  | x :: xs => insertAsc_pairwise key x (sortAsc key xs) (sortAsc_pairwise key xs)

theorem insertAsc_filter_of_eq {K : Type} [LinearOrder K] [DecidableEq K]
    (key : α → K) (x : α) (c : K) (hx : key x = c) :
    ∀ l : List α,
      (insertAsc key x l).filter (fun a => decide (key a = c)) =
        x :: l.filter (fun a => decide (key a = c))
  | [] => by simp [insertAsc, hx]
  | y :: ys => by
      unfold insertAsc
      by_cases hk : key y < key x
      · have hy : ¬ (key y = c) := fun h => absurd hk (by rw [h, hx]; exact lt_irrefl c)
        simp only [if_pos hk, List.filter_cons, decide_eq_true_eq]
        simp only [hy, if_false]
        exact insertAsc_filter_of_eq key x c hx ys
      · rw [if_neg hk]
        simp [List.filter_cons, hx]

theorem insertAsc_filter_of_ne {K : Type} [LinearOrder K] [DecidableEq K]
    (key : α → K) (x : α) (c : K) (hx : ¬ (key x = c)) :
    ∀ l : List α,
      (insertAsc key x l).filter (fun a => decide (key a = c)) =
        l.filter (fun a => decide (key a = c))
  | [] => by simp [insertAsc, hx]
  | y :: ys => by
      unfold insertAsc
      by_cases hk : key y < key x
      · simp only [if_pos hk, List.filter_cons]
        rw [insertAsc_filter_of_ne key x c hx ys]
      · rw [if_neg hk]
        simp [List.filter_cons, hx]

theorem sortAsc_filter_key {K : Type} [LinearOrder K] [DecidableEq K] (key : α → K) (c : K) :
    ∀ l : List α,
      (sortAsc key l).filter (fun a => decide (key a = c)) =
        l.filter (fun a => decide (key a = c))
  | [] => rfl
  | x :: xs => by
      unfold sortAsc
      by_cases hx : key x = c
      · rw [insertAsc_filter_of_eq key x c hx, sortAsc_filter_key key c xs]
        simp [List.filter_cons, hx]
      · rw [insertAsc_filter_of_ne key x c hx, sortAsc_filter_key key c xs]
        simp [List.filter_cons, hx]

theorem sortAsc_of_sorted {K : Type} [LinearOrder K] (key : α → K) :
    ∀ l : List α, l.Pairwise (fun a b => key a ≤ key b) → sortAsc key l = l
  | [], _ => rfl
  | x :: xs, h => by
      rcases List.pairwise_cons.mp h with ⟨hx, hxs⟩
      unfold sortAsc
      rw [sortAsc_of_sorted key xs hxs]
      cases xs with
      | nil => rfl
      | cons y ys =>
          have : ¬ key y < key x := not_lt_of_le (hx y (List.mem_cons_self y ys))
          simp [insertAsc, this]

theorem sortDescBy_perm {K : Type} [LinearOrder K] (key : α → K) (l : List α) :
    (sortDescBy key l).Perm l :=
  sortAsc_perm _ l

theorem sortDescBy_pairwise {K : Type} [LinearOrder K] (key : α → K) (l : List α) :
    (sortDescBy key l).Pairwise (fun a b => key b ≤ key a) := by
  have h := sortAsc_pairwise (fun a => OrderDual.toDual (key a)) l
  exact h.imp (fun hab => OrderDual.toDual_le_toDual.mp hab)

theorem sortDescBy_filter_key {K : Type} [LinearOrder K] [DecidableEq K]
    (key : α → K) (c : K) (l : List α) :
    (sortDescBy key l).filter (fun a => decide (key a = c)) =
      l.filter (fun a => decide (key a = c)) := by
  have h := sortAsc_filter_key (fun a => OrderDual.toDual (key a)) (OrderDual.toDual c) l
  have hp : ∀ (m : List α),
      m.filter (fun a => decide (OrderDual.toDual (key a) = OrderDual.toDual c)) =
        m.filter (fun a => decide (key a = c)) := by
    intro m
    apply List.filter_congr
    intro a _
    simp
  rw [hp, hp] at h
  exact h

theorem sortDescBy_of_sorted {K : Type} [LinearOrder K] (key : α → K) (l : List α)
    (h : l.Pairwise (fun a b => key b ≤ key a)) : sortDescBy key l = l :=
  sortAsc_of_sorted _ l (h.imp (fun hab => OrderDual.toDual_le_toDual.mpr hab))

/-! ### Lemmas about the incidence dict -/

theorem cntOf_bump (t u : Tag) :
    ∀ m : List (Tag × Nat), cntOf (bump t m) u = cntOf m u + (if u = t then 1 else 0)
  | [] => by
      by_cases h : t = u
      · subst h
        simp [bump, cntOf]
      · have h2 : ¬ (u = t) := fun he => h he.symm
        simp [bump, cntOf, h, h2]
  | (k, v) :: rest => by
      by_cases hk : k = t
      · subst hk
        by_cases hu : k = u
        · subst hu
          simp [bump, cntOf]
        · have hu2 : ¬ (u = k) := fun he => hu he.symm
          simp [bump, cntOf, hu, hu2]
      · by_cases hu : k = u
        · subst hu
          simp [bump, cntOf, hk]
        · simp [bump, cntOf, hk, hu, cntOf_bump t u rest]

theorem cntOf_foldl_bump (u : Tag) :
    ∀ (ts : List Tag) (m : List (Tag × Nat)),
      cntOf (ts.foldl (fun m t => bump t m) m) u = cntOf m u + ts.count u
  | [], m => by simp
  | t :: ts, m => by
      simp only [List.foldl_cons]
      rw [cntOf_foldl_bump u ts (bump t m), cntOf_bump t u m, List.count_cons]
      rcases eq_or_ne u t with h | h
      · subst h
        simp only [if_pos rfl, beq_self_eq_true, if_true]
        omega
      · have hb : (t == u) = false := beq_eq_false_iff_ne.mpr (fun he => h he.symm)
        simp only [if_neg h, hb, Bool.false_eq_true, if_false]
        omega

theorem cntOf_tagToIncidenceRaw_aux {α : Type} (tagsOf : α → List Tag) (u : Tag) :
    ∀ (es : List α) (m : List (Tag × Nat)),
      cntOf (es.foldl (fun m e => (tagsOf e).foldl (fun m t => bump t m) m) m) u =
        cntOf m u + ((es.map tagsOf).flatten.count u)
  | [], m => by simp
  | e :: es, m => by
      simp only [List.foldl_cons, List.map_cons, List.flatten_cons]
      rw [cntOf_tagToIncidenceRaw_aux tagsOf u es, cntOf_foldl_bump u (tagsOf e) m,
        List.count_append]
      omega

/-- The raw incidence dict counts every (entity, tag) occurrence whose tag
equals the key in all fields. -/
theorem cntOf_tagToIncidenceRaw {α : Type} (tagsOf : α → List Tag) (u : Tag) (es : List α) :
    cntOf (tagToIncidenceRaw tagsOf es) u = (es.map tagsOf).flatten.count u := by
  have h := cntOf_tagToIncidenceRaw_aux tagsOf u es []
  simpa [tagToIncidenceRaw, cntOf] using h

/-! ### Lemmas about pagination -/

theorem ceilDiv_mul_ge (n s : Nat) (hs : 0 < s) : n ≤ ceilDiv n s * s := by
  have h1 := Nat.div_add_mod (n + s - 1) s
  have h2 : (n + s - 1) % s < s := Nat.mod_lt _ hs
  rw [Nat.mul_comm] at h1
  unfold ceilDiv
  omega

theorem url_list_head (a : Option String) (pre suf : String) (n s : Nat) :
    (url_list a pre suf n s)[0]? = some a := by
  simp [url_list]

theorem url_list_get (a : Option String) (pre suf : String) (n s p : Nat)
    (h1 : 1 ≤ p) (h2 : p < number_of_pages n s) :
    (url_list a pre suf n s)[p]? = some (some (pagRoot a pre suf ++ toString p)) := by
  obtain ⟨q, rfl⟩ : ∃ q, p = q + 1 := ⟨p - 1, by omega⟩
  have hq : q < number_of_pages n s - 1 := by omega
  simp [url_list, List.getElem?_map, List.getElem?_range', hq, Nat.add_comm 1 q]

theorem generate_entities_eq_drop_take {α : Type} (es : List α) (s p : Nat) :
    generate_entities es s p = (es.drop (p * s)).take s := by
  unfold generate_entities pySlice
  have h1 : es.take (min ((p + 1) * s) es.length) = es.take ((p + 1) * s) :=
    List.take_eq_take.mpr (by omega)
  rw [h1, List.drop_take]
  congr 1
  have h2 : (p + 1) * s = p * s + s := by ring
  omega

theorem flatten_slices {α : Type} (es : List α) (s : Nat) :
    ∀ k : Nat, ((List.range k).map (fun p => (es.drop (p * s)).take s)).flatten =
      es.take (k * s)
  | 0 => by simp
  | k + 1 => by
      rw [List.range_succ, List.map_append, List.flatten_append, flatten_slices es s k]
      have h : (k + 1) * s = k * s + s := by ring
      rw [h, List.take_add]
      simp

theorem slices_cover {α : Type} (es : List α) (s : Nat) (hs : 0 < s) :
    ((List.range (max 1 (number_of_pages es.length s))).map
      (fun q => generate_entities es s q)).flatten = es := by
  have hfun : (fun q => generate_entities es s q) =
      fun q => (es.drop (q * s)).take s := by
    funext q
    exact generate_entities_eq_drop_take es s q
  rw [hfun, flatten_slices]
  apply List.take_of_length_le
  calc es.length ≤ ceilDiv es.length s * s := ceilDiv_mul_ge es.length s hs
    _ ≤ max 1 (number_of_pages es.length s) * s :=
        Nat.mul_le_mul_right s (le_max_right _ _)

/-! ### Claim C1 (pagination URL derivation) -/

/-- C1, counterexample: for a null url_alias the code never inserts the
pagination separator, so with the default settings page 1 of a null-alias
listing of 8 entities with page size 3 is page-1, not the -page-1 that the
claimed rule base + pagination_prefix + pagination_suffix + p (with empty
base) would produce. -/
theorem C1_counterexample :
    (url_list none paginationPre paginationSuf 8 3)[1]? = some (some "page-1") ∧
      ("page-1" : String) ≠ "" ++ paginationPre ++ paginationSuf ++ toString 1 := by
  constructor
  · rfl
  · decide

/-- C1, amended: page 0's URL is the url_alias itself, and for every page
p with 1 <= p < number_of_pages the URL is alias + pagination_prefix +
pagination_suffix + p when the alias is non-null, and pagination_suffix +
p (with no separator) when the alias is null. -/
theorem C1_pagination_urls (a : Option String) (pre suf : String) (n s p : Nat)
    (h1 : 1 ≤ p) (h2 : p < number_of_pages n s) :
    (url_list a pre suf n s)[0]? = some a ∧
      (url_list a pre suf n s)[p]? = some (some (pagRoot a pre suf ++ toString p)) :=
  ⟨url_list_head a pre suf n s, url_list_get a pre suf n s p h1 h2⟩

/-- C1, witness: the amended rule evaluated for a listing of 8 entities
with page size 3 under the alias blog, at page 2. -/
theorem C1_pagination_urls_witness :
    (url_list (some "blog") paginationPre paginationSuf 8 3)[0]? = some (some "blog") ∧
      (url_list (some "blog") paginationPre paginationSuf 8 3)[2]? =
        some (some (pagRoot (some "blog") paginationPre paginationSuf ++ toString 2)) :=
  C1_pagination_urls (some "blog") paginationPre paginationSuf 8 3 2 (by decide) (by decide)

/-! ### Claim C2 (number of pages) -/

/-- C2, counterexample: for the empty entity list the number_of_pages
attribute is ceil(0 / s) = 0, not the claimed max(1, ceil(n / s)) = 1. -/
theorem C2_counterexample :
    number_of_pages 0 7 = 0 ∧ number_of_pages 0 7 ≠ max 1 (ceilDiv 0 7) := by
  decide

/-- C2, amended: number_of_pages is exactly ceil(n / s) with no minimum
of one (0 for an empty list); the URL list nevertheless always contains
page 0 (the url_alias itself), so its length is max(1, ceil(n / s)). -/
theorem C2_number_of_pages (a : Option String) (pre suf : String) (n s : Nat) :
    number_of_pages n s = ceilDiv n s ∧
      (url_list a pre suf n s).length = max 1 (ceilDiv n s) ∧
      (url_list a pre suf n s)[0]? = some a := by
  refine ⟨rfl, ?_, by simp [url_list]⟩
  simp only [url_list, List.length_cons, List.length_map, List.length_range']
  unfold number_of_pages
  omega

/-! ### Claim C7 (pagination slices) -/

/-- C7: the slice for page p holds exactly the entities at indices
p * s up to min((p + 1) * s, n), and the concatenation of the slices of
all emitted pages (pages 0 up to max(1, number_of_pages) - 1, matching
the URL list) reproduces the entity list exactly. -/
theorem C7_pagination_slices {α : Type} (es : List α) (s p i : Nat) (hs : 0 < s) :
    (generate_entities es s p)[i]? =
        (if p * s + i < min ((p + 1) * s) es.length then es[p * s + i]? else none) ∧
      ((List.range (max 1 (number_of_pages es.length s))).map
        (fun q => generate_entities es s q)).flatten = es := by
  constructor
  · unfold generate_entities pySlice
    rw [List.getElem?_drop, List.getElem?_take]
  · exact slices_cover es s hs

/-- C7, witness: slices of a 5-element list with page size 2, evaluated
at page 1, offset 0. -/
theorem C7_pagination_slices_witness :
    (generate_entities [10, 20, 30, 40, 50] 2 1)[0]? =
        (if 1 * 2 + 0 < min ((1 + 1) * 2) ([10, 20, 30, 40, 50] : List Nat).length
          then ([10, 20, 30, 40, 50] : List Nat)[1 * 2 + 0]? else none) ∧
      ((List.range (max 1 (number_of_pages ([10, 20, 30, 40, 50] : List Nat).length 2))).map
        (fun q => generate_entities [10, 20, 30, 40, 50] 2 q)).flatten =
        [10, 20, 30, 40, 50] :=
  C7_pagination_slices [10, 20, 30, 40, 50] 2 1 0 (by decide)

/-! ### Lemmas about Sites construction -/

theorem dedup_length_eq_iff_nodup {β : Type} [DecidableEq β] (l : List β) :
    l.dedup.length = l.length ↔ l.Nodup := by
  constructor
  · intro h
    exact List.dedup_eq_self.mp (l.dedup_sublist.eq_of_length h)
  · intro h
    rw [List.dedup_eq_self.mpr h]

theorem sites_init_error_iff (es : List SiteEntity)
    (t1 t2 t3 t4 t5 t6 t7 : String) :
    Sites.init es true t1 t2 t3 t4 t5 t6 t7 = .error .notAllUrlsUnique ↔
      ¬ (allAliases es).Nodup := by
  unfold Sites.init
  by_cases h : (allAliases es).Nodup
  · have he : (allAliases es).dedup.length = (allAliases es).length :=
      (dedup_length_eq_iff_nodup _).mpr h
    simp [he, h]
  · have he : (allAliases es).dedup.length ≠ (allAliases es).length := fun hh =>
      h ((dedup_length_eq_iff_nodup _).mp hh)
    simp [he, h]

theorem countP_le_one_of_nodup {β : Type} [DecidableEq β] (a : β) :
    ∀ l : List β, l.Nodup → l.countP (fun x => decide (x = a)) ≤ 1
  | [], _ => by simp
  | x :: xs, h => by
      rcases List.nodup_cons.mp h with ⟨hx, hxs⟩
      rw [List.countP_cons]
      by_cases hxa : x = a
      · subst hxa
        have hz : xs.countP (fun y => decide (y = x)) = 0 := by
          rw [List.countP_eq_zero]
          intro y hy
          simp only [decide_eq_true_eq]
          intro he
          exact hx (he ▸ hy)
        simp [hz]
      · have ih := countP_le_one_of_nodup a xs hxs
        simp only [decide_eq_true_eq, hxa, if_false]
        omega

theorem not_nodup_of_two_countP {β : Type} [DecidableEq β] (l : List β) (a : β)
    (h : 2 ≤ l.countP (fun x => decide (x = a))) : ¬ l.Nodup := fun hn =>
  absurd (countP_le_one_of_nodup a l hn) (by omega)

/-! ### Claim C4 (URL uniqueness check) -/

/-- C4, counterexample: the entity list with one null-alias page and one
null-alias article has all its non-null aliases (vacuously) pairwise
distinct, yet construction raises the duplicate-URL error, because None
aliases enter the same uniqueness set. -/
theorem C4_counterexample :
    ((allAliases entsC4).filterMap id).Nodup ∧
      Sites.init entsC4 true "a" "b" "c" "d" "e" "f" "g" = .error .notAllUrlsUnique := by
  constructor
  · decide
  · rfl

/-- C4, amended: with URL checking enabled, construction raises the
duplicate-URL error exactly when the aliases of all entities, null
included, are not pairwise distinct; in particular any alias (null or
non-null) occurring at least twice is fatal, and construction succeeds
only when non-null aliases are distinct and at most one entity has a
null alias. -/
theorem C4_url_uniqueness (es : List SiteEntity) (t1 t2 t3 t4 t5 t6 t7 : String) :
    (Sites.init es true t1 t2 t3 t4 t5 t6 t7 = .error .notAllUrlsUnique ↔
        ¬ (allAliases es).Nodup) ∧
      ∀ a : Option String, 2 ≤ (allAliases es).countP (fun x => decide (x = a)) →
        Sites.init es true t1 t2 t3 t4 t5 t6 t7 = .error .notAllUrlsUnique := by
  refine ⟨sites_init_error_iff es t1 t2 t3 t4 t5 t6 t7, fun a ha => ?_⟩
  exact (sites_init_error_iff es t1 t2 t3 t4 t5 t6 t7).mpr (not_nodup_of_two_countP _ a ha)

/-- C4, witness: the uniqueness characterisation evaluated on a
single-page entity list. -/
theorem C4_url_uniqueness_witness :
    (Sites.init [SiteEntity.page pagePos] true "a" "b" "c" "d" "e" "f" "g" =
          .error .notAllUrlsUnique ↔
        ¬ (allAliases [SiteEntity.page pagePos]).Nodup) ∧
      ∀ a : Option String,
        2 ≤ (allAliases [SiteEntity.page pagePos]).countP (fun x => decide (x = a)) →
        Sites.init [SiteEntity.page pagePos] true "a" "b" "c" "d" "e" "f" "g" =
          .error .notAllUrlsUnique :=
  C4_url_uniqueness [SiteEntity.page pagePos] "a" "b" "c" "d" "e" "f" "g"

/-! ### Claim C9 (menu page list) -/

theorem pagesInMenu_eq_spec : ∀ pages : List Page, pagesInMenu pages = menuSuffixSpec pages
  | [] => rfl
  | p :: ps => by
      unfold pagesInMenu menuSuffixSpec
      by_cases h : p.menu_position.isSome
      · simp [List.findIdx_cons, h]
      · rw [if_neg (by simp [h])]
        rw [pagesInMenu_eq_spec ps]
        unfold menuSuffixSpec
        simp [List.findIdx_cons, h]

theorem pagesInMenu_nil_of_none : ∀ pages : List Page,
    (∀ p ∈ pages, p.menu_position = none) → pagesInMenu pages = []
  | [], _ => rfl
  | p :: ps, h => by
      have hp : p.menu_position = none := h p (List.mem_cons_self p ps)
      unfold pagesInMenu
      rw [if_neg (by simp [hp])]
      exact pagesInMenu_nil_of_none ps (fun q hq => h q (List.mem_cons_of_mem p hq))

/-- C9: the pages shown in the menu are exactly the suffix of the sorted
page list starting at the first page whose menu_position is non-null,
and the menu list is empty when no page has a menu position. -/
theorem C9_menu_is_suffix (s : Sites) :
    s.list_of_pages_in_menu = menuSuffixSpec s.list_of_pages ∧
      ((∀ p ∈ s.list_of_pages, p.menu_position = none) →
        s.list_of_pages_in_menu = []) :=
  ⟨pagesInMenu_eq_spec s.list_of_pages,
    fun h => pagesInMenu_nil_of_none s.list_of_pages h⟩

/-- C9, witness: the menu-suffix property evaluated on a concrete
assembler. -/
theorem C9_menu_is_suffix_witness :
    (sitesBuild entsC8 "a" "b" "c" "d" "e" "f" "g").list_of_pages_in_menu =
        menuSuffixSpec (sitesBuild entsC8 "a" "b" "c" "d" "e" "f" "g").list_of_pages ∧
      ((∀ p ∈ (sitesBuild entsC8 "a" "b" "c" "d" "e" "f" "g").list_of_pages,
          p.menu_position = none) →
        (sitesBuild entsC8 "a" "b" "c" "d" "e" "f" "g").list_of_pages_in_menu = []) :=
  C9_menu_is_suffix (sitesBuild entsC8 "a" "b" "c" "d" "e" "f" "g")

/-! ### Claim C10 (menu_position 0 sorts like None) -/

/-- C10: the sort key of Sites.__init__ maps a page with menu_position 0
to -1, the same key as an unpositioned page, so in the sorted page list a
page with a positive position is never followed by a page with
menu_position 0. -/
theorem C10_menu_position_zero (pages : List Page) (p q : Page) (i j : Nat) (v : Int)
    (hp : p.menu_position = some 0) (hq : q.menu_position = none) (hv : 0 < v)
    (hij : i < j) (hj : j < (sortAsc pageSortKey pages).length)
    (hi : ((sortAsc pageSortKey pages).get
        ⟨i, Nat.lt_trans hij hj⟩).menu_position = some v) :
    pageSortKey p = -1 ∧ pageSortKey p = pageSortKey q ∧
      ((sortAsc pageSortKey pages).get ⟨j, hj⟩).menu_position ≠ some 0 := by
  have hkeyp : pageSortKey p = -1 := by simp [pageSortKey, hp]
  have hkeyq : pageSortKey q = -1 := by simp [pageSortKey, hq]
  refine ⟨hkeyp, by rw [hkeyp, hkeyq], ?_⟩
  intro hj0
  have hpair := sortAsc_pairwise pageSortKey pages
  have hle := (List.pairwise_iff_get.mp hpair) ⟨i, Nat.lt_trans hij hj⟩ ⟨j, hj⟩
    (Fin.mk_lt_mk.mpr hij)
  have hv0 : ¬ (v = 0) := by omega
  have hkey_pos : ∀ (x : Page), x.menu_position = some v → pageSortKey x = v := by
    intro x hx
    simp [pageSortKey, hx, hv0]
  have hkey_zero : ∀ (x : Page), x.menu_position = some 0 → pageSortKey x = -1 := by
    intro x hx
    simp [pageSortKey, hx]
  rw [hkey_pos _ hi, hkey_zero _ hj0] at hle
  omega

/-- C10, witness: in the sorted list of pages with positions 5, 0 and 7,
the zero-position page takes key -1 like the unpositioned page, and the
page after the position-5 page is not the zero-position one. -/
theorem C10_menu_position_zero_witness :
    pageSortKey pageZero = -1 ∧ pageSortKey pageZero = pageSortKey pageNoMenu ∧
      ((sortAsc pageSortKey pagesC10).get ⟨2, by decide⟩).menu_position ≠ some 0 :=
  C10_menu_position_zero pagesC10 pageZero pageNoMenu 1 2 5 rfl rfl (by decide)
    (by decide) (by decide) (by decide)

/-! ### Claim C6 (incidence ordering) -/

/-- C6: for any entity collection, the incidence mapping built by the
indexer over the date-descending entity list has counts in non-increasing
order, and the keys of any fixed count keep their first-encountered
(insertion) order from the unsorted dict, i.e. the count sort is stable. -/
theorem C6_incidence_sorted {α : Type} (tagsOf : α → List Tag) (dateOf : α → Int)
    (es : List α) :
    (tagToIncidence tagsOf (sortDescBy dateOf es)).Pairwise (fun a b => b.2 ≤ a.2) ∧
      ∀ c : Nat,
        (tagToIncidence tagsOf (sortDescBy dateOf es)).filter
            (fun kv => decide (kv.2 = c)) =
          (tagToIncidenceRaw tagsOf (sortDescBy dateOf es)).filter
            (fun kv => decide (kv.2 = c)) :=
  ⟨sortDescBy_pairwise _ _, fun c => sortDescBy_filter_key _ c _⟩

/-! ### Claim C5 (tag identity) -/

/-- C5, counterexample: two articles tagged with the same alias x but
names A and B produce an incidence dict with two distinct keys of count 1
each, not one key of count 2, although both tags have the same hash
input; so alias equality alone does not merge dict keys. -/
theorem C5_counterexample :
    tagHashInput ⟨"A", "x"⟩ = tagHashInput ⟨"B", "x"⟩ ∧
      tagToIncidenceRaw Article.tags [articleTagA, articleTagB] =
        [(⟨"A", "x"⟩, 1), (⟨"B", "x"⟩, 1)] ∧
      (tagToIncidenceRaw Article.tags [articleTagA, articleTagB]).length ≠ 1 := by
  refine ⟨rfl, ?_, ?_⟩
  · decide
  · decide

/-! ### Partition lemmas for the entity buckets -/

theorem pagesOf_cons_page (p : Page) (es : List SiteEntity) :
    pagesOf (SiteEntity.page p :: es) = p :: pagesOf es := rfl

theorem pagesOf_cons_article (a : Article) (es : List SiteEntity) :
    pagesOf (SiteEntity.article a :: es) = pagesOf es := rfl

theorem pagesOf_cons_dataset (d : Dataset) (es : List SiteEntity) :
    pagesOf (SiteEntity.dataset d :: es) = pagesOf es := rfl

theorem articlesOf_cons_page (p : Page) (es : List SiteEntity) :
    articlesOf (SiteEntity.page p :: es) = articlesOf es := rfl

theorem articlesOf_cons_article (a : Article) (es : List SiteEntity) :
    articlesOf (SiteEntity.article a :: es) = a :: articlesOf es := rfl

theorem articlesOf_cons_dataset (d : Dataset) (es : List SiteEntity) :
    articlesOf (SiteEntity.dataset d :: es) = articlesOf es := rfl

theorem datasetsOf_cons_page (p : Page) (es : List SiteEntity) :
    datasetsOf (SiteEntity.page p :: es) = datasetsOf es := rfl

theorem datasetsOf_cons_article (a : Article) (es : List SiteEntity) :
    datasetsOf (SiteEntity.article a :: es) = datasetsOf es := rfl

theorem datasetsOf_cons_dataset (d : Dataset) (es : List SiteEntity) :
    datasetsOf (SiteEntity.dataset d :: es) = d :: datasetsOf es := rfl

/-! ### Claim C3 (multiple homepages) -/

theorem hpWeight_le_one (acc : Option Homepage) : hpWeight acc ≤ 1 := by
  cases acc <;> simp [hpWeight]

theorem scanHp_ok {α : Type} (aliasOf : α → Option String) (inj : α → Homepage) :
    ∀ (xs : List α) (acc : Option Homepage),
      hpWeight acc + xs.countP (fun x => (aliasOf x).isNone) ≤ 1 →
      ∃ acc2, scanHp aliasOf inj acc xs = .ok acc2 ∧
        hpWeight acc2 = hpWeight acc + xs.countP (fun x => (aliasOf x).isNone)
  | [], acc, _ => ⟨acc, rfl, by simp⟩
  | x :: xs, acc, h => by
      unfold scanHp
      by_cases hx : (aliasOf x).isNone
      · rw [if_pos hx]
        have hcc : (x :: xs).countP (fun y => (aliasOf y).isNone) =
            xs.countP (fun y => (aliasOf y).isNone) + 1 := by
          rw [List.countP_cons]
          simp [hx]
        cases acc with
        | some hp =>
            exfalso
            rw [hcc] at h
            have h1 : hpWeight (some hp) = 1 := rfl
            omega
        | none =>
            have h0 : hpWeight (none : Option Homepage) = 0 := rfl
            have h1 : hpWeight (some (inj x)) = 1 := rfl
            have hle : hpWeight (some (inj x)) +
                xs.countP (fun y => (aliasOf y).isNone) ≤ 1 := by
              rw [hcc] at h
              omega
            obtain ⟨acc2, hs, hw⟩ := scanHp_ok aliasOf inj xs (some (inj x)) hle
            refine ⟨acc2, hs, ?_⟩
            rw [hw, hcc]
            omega
      · rw [if_neg hx]
        have hcc : (x :: xs).countP (fun y => (aliasOf y).isNone) =
            xs.countP (fun y => (aliasOf y).isNone) := by
          rw [List.countP_cons]
          simp [hx]
        rw [hcc] at h
        obtain ⟨acc2, hs, hw⟩ := scanHp_ok aliasOf inj xs acc h
        exact ⟨acc2, hs, by rw [hw, hcc]⟩

theorem scanHp_err {α : Type} (aliasOf : α → Option String) (inj : α → Homepage) :
    ∀ (xs : List α) (acc : Option Homepage),
      2 ≤ hpWeight acc + xs.countP (fun x => (aliasOf x).isNone) →
      scanHp aliasOf inj acc xs = .error .multipleHomepages
  | [], acc, h => by
      exfalso
      have hle := hpWeight_le_one acc
      rw [List.countP_nil] at h
      omega
  | x :: xs, acc, h => by
      unfold scanHp
      by_cases hx : (aliasOf x).isNone
      · rw [if_pos hx]
        have hcc : (x :: xs).countP (fun y => (aliasOf y).isNone) =
            xs.countP (fun y => (aliasOf y).isNone) + 1 := by
          rw [List.countP_cons]
          simp [hx]
        cases acc with
        | some hp => rfl
        | none =>
            apply scanHp_err aliasOf inj xs (some (inj x))
            rw [hcc] at h
            have h0 : hpWeight (none : Option Homepage) = 0 := rfl
            have h1 : hpWeight (some (inj x)) = 1 := rfl
            omega
      · rw [if_neg hx]
        apply scanHp_err aliasOf inj xs acc
        have hcc : (x :: xs).countP (fun y => (aliasOf y).isNone) =
            xs.countP (fun y => (aliasOf y).isNone) := by
          rw [List.countP_cons]
          simp [hx]
        rw [hcc] at h
        exact h

theorem countP_none_allAliases : ∀ es : List SiteEntity,
    (allAliases es).countP (fun x => decide (x = none)) = nullCount es
  | [] => rfl
  | SiteEntity.page p :: es => by
      have ih := countP_none_allAliases es
      simp only [allAliases, nullCount, pagesOf_cons_page, articlesOf_cons_page,
        datasetsOf_cons_page, List.map_cons, List.countP_append, List.countP_cons,
        SiteEntity.url_alias] at ih ⊢
      have heq : (if decide (p.url_alias = none) = true then 1 else 0 : Nat) =
          (if p.url_alias.isNone = true then 1 else 0) := by
        cases hu : p.url_alias <;> simp [hu]
      rw [heq]
      omega
  | SiteEntity.article a :: es => by
      have ih := countP_none_allAliases es
      simp only [allAliases, nullCount, pagesOf_cons_article, articlesOf_cons_article,
        datasetsOf_cons_article, List.map_cons, List.countP_append, List.countP_cons,
        SiteEntity.url_alias] at ih ⊢
      have heq : (if decide (a.url_alias = none) = true then 1 else 0 : Nat) =
          (if a.url_alias.isNone = true then 1 else 0) := by
        cases hu : a.url_alias <;> simp [hu]
      rw [heq]
      omega
  | SiteEntity.dataset d :: es => by
      have ih := countP_none_allAliases es
      simp only [allAliases, nullCount, pagesOf_cons_dataset, articlesOf_cons_dataset,
        datasetsOf_cons_dataset, List.map_cons, List.countP_append, List.countP_cons,
        SiteEntity.url_alias] at ih ⊢
      have heq : (if decide (d.url_alias = none) = true then 1 else 0 : Nat) =
          (if d.url_alias.isNone = true then 1 else 0) := by
        cases hu : d.url_alias <;> simp [hu]
      rw [heq]
      omega

theorem nullCount_buckets : ∀ es : List SiteEntity,
    (pagesOf es).countP (fun p => p.url_alias.isNone) +
      (articlesOf es).countP (fun a => a.url_alias.isNone) +
      (datasetsOf es).countP (fun d => d.url_alias.isNone) = nullCount es
  | [] => rfl
  | SiteEntity.page p :: es => by
      have ih := nullCount_buckets es
      simp only [nullCount, pagesOf_cons_page, articlesOf_cons_page,
        datasetsOf_cons_page, List.countP_cons, SiteEntity.url_alias] at ih ⊢
      omega
  | SiteEntity.article a :: es => by
      have ih := nullCount_buckets es
      simp only [nullCount, pagesOf_cons_article, articlesOf_cons_article,
        datasetsOf_cons_article, List.countP_cons, SiteEntity.url_alias] at ih ⊢
      omega
  | SiteEntity.dataset d :: es => by
      have ih := nullCount_buckets es
      simp only [nullCount, pagesOf_cons_dataset, articlesOf_cons_dataset,
        datasetsOf_cons_dataset, List.countP_cons, SiteEntity.url_alias] at ih ⊢
      omega

theorem homepage_err_of_two_nulls (s : Sites)
    (h : 2 ≤ s.list_of_pages.countP (fun p => p.url_alias.isNone) +
      s.list_of_articles.countP (fun a => a.url_alias.isNone) +
      s.list_of_datasets.countP (fun d => d.url_alias.isNone)) :
    s.homepage = .error .multipleHomepages := by
  unfold Sites.homepage
  by_cases h1 : 2 ≤ hpWeight none +
      s.list_of_pages.countP (fun p => p.url_alias.isNone)
  · rw [scanHp_err _ _ _ _ h1]
  · obtain ⟨acc1, hs1, hw1⟩ := scanHp_ok Page.url_alias Homepage.fromPage
      s.list_of_pages none (by simp [hpWeight] at h1 ⊢; omega)
    rw [hs1]
    dsimp only
    by_cases h2 : 2 ≤ hpWeight acc1 +
        s.list_of_articles.countP (fun a => a.url_alias.isNone)
    · rw [scanHp_err _ _ _ _ h2]
    · obtain ⟨acc2, hs2, hw2⟩ := scanHp_ok Article.url_alias Homepage.fromArticle
        s.list_of_articles acc1 (by omega)
      rw [hs2]
      dsimp only
      have h3 : 2 ≤ hpWeight acc2 +
          s.list_of_datasets.countP (fun d => d.url_alias.isNone) := by
        rw [hw2, hw1]
        have h0 : hpWeight (none : Option Homepage) = 0 := rfl
        omega
      rw [scanHp_err _ _ _ _ h3]

/-- C3, counterexample: constructing the assembler (with the default URL
checking) from two null-alias pages raises the Not-all-URLs-unique
error, not the multiple-homepages error, because the two None aliases
already collide in the URL uniqueness set during construction. -/
theorem C3_counterexample :
    Sites.init entsC3 true "a" "b" "c" "d" "e" "f" "g" = .error .notAllUrlsUnique ∧
      SitesError.notAllUrlsUnique ≠ SitesError.multipleHomepages := by
  constructor
  · rfl
  · decide

/-- C3, amended: for an entity list with at least two null-alias
entities, construction with URL checking enabled raises the
duplicate-URL error (the None aliases collide in the uniqueness set);
with checking disabled construction succeeds, and resolving the homepage
on the resulting assembler raises the multiple-homepages error (the
resolver scans pages, then articles, then datasets). -/
theorem C3_multiple_homepages (es : List SiteEntity) (t1 t2 t3 t4 t5 t6 t7 : String)
    (h : 2 ≤ nullCount es) :
    Sites.init es true t1 t2 t3 t4 t5 t6 t7 = .error .notAllUrlsUnique ∧
      ∀ s : Sites, Sites.init es false t1 t2 t3 t4 t5 t6 t7 = .ok s →
        s.homepage = .error .multipleHomepages := by
  constructor
  · exact (sites_init_error_iff es t1 t2 t3 t4 t5 t6 t7).mpr
      (not_nodup_of_two_countP _ none (by rw [countP_none_allAliases]; exact h))
  · intro s hs
    have hs2 : sitesBuild es t1 t2 t3 t4 t5 t6 t7 = s := by
      unfold Sites.init at hs
      simpa using hs
    subst hs2
    apply homepage_err_of_two_nulls
    show 2 ≤ (sortAsc pageSortKey (pagesOf es)).countP (fun p => p.url_alias.isNone) +
      (sortDescBy Article.date (articlesOf es)).countP (fun a => a.url_alias.isNone) +
      (sortDescBy Dataset.date (datasetsOf es)).countP (fun d => d.url_alias.isNone)
    rw [(sortAsc_perm pageSortKey (pagesOf es)).countP_eq,
      (sortDescBy_perm Article.date (articlesOf es)).countP_eq,
      (sortDescBy_perm Dataset.date (datasetsOf es)).countP_eq]
    have hb := nullCount_buckets es
    omega

/-- C3, witness: the amended statement evaluated on the two null-alias
pages. -/
theorem C3_multiple_homepages_witness :
    Sites.init entsC3 true "p" "q" "r" "u" "v" "w" "z" = .error .notAllUrlsUnique ∧
      ∀ s : Sites, Sites.init entsC3 false "p" "q" "r" "u" "v" "w" "z" = .ok s →
        s.homepage = .error .multipleHomepages :=
  C3_multiple_homepages entsC3 "p" "q" "r" "u" "v" "w" "z" (by decide)

/-- C5, amended: the Tag hash is determined by url_alias alone, but
dict-key identity is the dataclass equality comparing name and url_alias
together; consequently entities accumulate under one key exactly per
full tag equality: the count stored under a tag equals the number of tag
occurrences equal to it in both fields. -/
theorem C5_tag_identity (t u : Tag) (es : List Article) :
    (tagHashInput t = tagHashInput u ↔ t.url_alias = u.url_alias) ∧
      (t = u ↔ (t.name = u.name ∧ t.url_alias = u.url_alias)) ∧
      cntOf (tagToIncidenceRaw Article.tags es) t =
        (es.map Article.tags).flatten.count t := by
  refine ⟨Iff.rfl, ?_, cntOf_tagToIncidenceRaw Article.tags t es⟩
  constructor
  · intro h
    rw [h]
    exact ⟨rfl, rfl⟩
  · rintro ⟨h1, h2⟩
    cases t
    cases u
    simp_all

/-! ### Claim C8 (JSON round trip) -/

theorem objectFromJson_page (p : Page) :
    objectFromJson (EntityJson.page p.toJsonDict) = .page p := rfl

theorem objectFromJson_article (a : Article) :
    objectFromJson (EntityJson.article a.toJsonDict) = .article a := rfl

theorem objectFromJson_dataset (d : Dataset) :
    objectFromJson (EntityJson.dataset d.toJsonDict) = .dataset d := rfl

theorem pagesOf_append (l1 l2 : List SiteEntity) :
    pagesOf (l1 ++ l2) = pagesOf l1 ++ pagesOf l2 :=
  List.filterMap_append _ _ _

theorem articlesOf_append (l1 l2 : List SiteEntity) :
    articlesOf (l1 ++ l2) = articlesOf l1 ++ articlesOf l2 :=
  List.filterMap_append _ _ _

theorem datasetsOf_append (l1 l2 : List SiteEntity) :
    datasetsOf (l1 ++ l2) = datasetsOf l1 ++ datasetsOf l2 :=
  List.filterMap_append _ _ _

theorem pagesOf_map_page : ∀ ps : List Page, pagesOf (ps.map SiteEntity.page) = ps
  | [] => rfl
  | p :: ps => by rw [List.map_cons, pagesOf_cons_page, pagesOf_map_page ps]

theorem pagesOf_map_article : ∀ l : List Article, pagesOf (l.map SiteEntity.article) = []
  | [] => rfl
  | a :: l => by rw [List.map_cons, pagesOf_cons_article, pagesOf_map_article l]

theorem pagesOf_map_dataset : ∀ l : List Dataset, pagesOf (l.map SiteEntity.dataset) = []
  | [] => rfl
  | d :: l => by rw [List.map_cons, pagesOf_cons_dataset, pagesOf_map_dataset l]

theorem articlesOf_map_page : ∀ l : List Page, articlesOf (l.map SiteEntity.page) = []
  | [] => rfl
  | p :: l => by rw [List.map_cons, articlesOf_cons_page, articlesOf_map_page l]

theorem articlesOf_map_article :
    ∀ l : List Article, articlesOf (l.map SiteEntity.article) = l
  | [] => rfl
  | a :: l => by rw [List.map_cons, articlesOf_cons_article, articlesOf_map_article l]

theorem articlesOf_map_dataset :
    ∀ l : List Dataset, articlesOf (l.map SiteEntity.dataset) = []
  | [] => rfl
  | d :: l => by rw [List.map_cons, articlesOf_cons_dataset, articlesOf_map_dataset l]

theorem datasetsOf_map_page : ∀ l : List Page, datasetsOf (l.map SiteEntity.page) = []
  | [] => rfl
  | p :: l => by rw [List.map_cons, datasetsOf_cons_page, datasetsOf_map_page l]

theorem datasetsOf_map_article :
    ∀ l : List Article, datasetsOf (l.map SiteEntity.article) = []
  | [] => rfl
  | a :: l => by rw [List.map_cons, datasetsOf_cons_article, datasetsOf_map_article l]

theorem datasetsOf_map_dataset :
    ∀ l : List Dataset, datasetsOf (l.map SiteEntity.dataset) = l
  | [] => rfl
  | d :: l => by rw [List.map_cons, datasetsOf_cons_dataset, datasetsOf_map_dataset l]

/-- Deserializing the serialized entity list of a Sites instance yields
the pages, then articles, then datasets, in stored order. -/
theorem mapped_entities (s : Sites) :
    s.toJson.list_of_entities.map objectFromJson =
      s.list_of_pages.map SiteEntity.page ++
        s.list_of_articles.map SiteEntity.article ++
        s.list_of_datasets.map SiteEntity.dataset := by
  simp only [Sites.toJson, List.map_append, List.map_map]
  rfl

theorem pagesOf_roundtrip (s : Sites) :
    pagesOf (s.toJson.list_of_entities.map objectFromJson) = s.list_of_pages := by
  rw [mapped_entities, pagesOf_append, pagesOf_append, pagesOf_map_page,
    pagesOf_map_article, pagesOf_map_dataset]
  simp

theorem articlesOf_roundtrip (s : Sites) :
    articlesOf (s.toJson.list_of_entities.map objectFromJson) = s.list_of_articles := by
  rw [mapped_entities, articlesOf_append, articlesOf_append, articlesOf_map_page,
    articlesOf_map_article, articlesOf_map_dataset]
  simp

theorem datasetsOf_roundtrip (s : Sites) :
    datasetsOf (s.toJson.list_of_entities.map objectFromJson) = s.list_of_datasets := by
  rw [mapped_entities, datasetsOf_append, datasetsOf_append, datasetsOf_map_page,
    datasetsOf_map_article, datasetsOf_map_dataset]
  simp

theorem sites_init_ok_of_nodup (es : List SiteEntity)
    (t1 t2 t3 t4 t5 t6 t7 : String) (h : (allAliases es).Nodup) :
    Sites.init es true t1 t2 t3 t4 t5 t6 t7 =
      .ok (sitesBuild es t1 t2 t3 t4 t5 t6 t7) := by
  unfold Sites.init
  have he : (allAliases es).dedup.length = (allAliases es).length :=
    (dedup_length_eq_iff_nodup _).mpr h
  simp [he]

/-- C8: serializing a successfully constructed assembler, deserializing
it, and serializing again yields the same document field for field; the
derived collections are recomputed, not stored. -/
theorem C8_json_roundtrip (es : List SiteEntity) (t1 t2 t3 t4 t5 t6 t7 : String)
    (s : Sites) (h : Sites.init es true t1 t2 t3 t4 t5 t6 t7 = .ok s) :
    (sitesFromJson s.toJson).map Sites.toJson = Except.ok s.toJson := by
  have hnodup : (allAliases es).Nodup := by
    by_contra hn
    rw [(sites_init_error_iff es t1 t2 t3 t4 t5 t6 t7).mpr hn] at h
    exact Except.noConfusion h
  have hs : s = sitesBuild es t1 t2 t3 t4 t5 t6 t7 := by
    rw [sites_init_ok_of_nodup es t1 t2 t3 t4 t5 t6 t7 hnodup] at h
    exact (Except.ok.inj h).symm
  subst hs
  have hP : pagesOf ((sitesBuild es t1 t2 t3 t4 t5 t6 t7).toJson.list_of_entities.map
      objectFromJson) = sortAsc pageSortKey (pagesOf es) :=
    pagesOf_roundtrip _
  have hA : articlesOf ((sitesBuild es t1 t2 t3 t4 t5 t6 t7).toJson.list_of_entities.map
      objectFromJson) = sortDescBy Article.date (articlesOf es) :=
    articlesOf_roundtrip _
  have hD : datasetsOf ((sitesBuild es t1 t2 t3 t4 t5 t6 t7).toJson.list_of_entities.map
      objectFromJson) = sortDescBy Dataset.date (datasetsOf es) :=
    datasetsOf_roundtrip _
  have hnodup2 : (allAliases ((sitesBuild es t1 t2 t3 t4 t5 t6 t7).toJson.list_of_entities.map
      objectFromJson)).Nodup := by
    refine (List.Perm.nodup_iff ?_).mpr hnodup
    unfold allAliases
    rw [hP, hA, hD]
    exact (((sortDescBy_perm Article.date (articlesOf es)).map _).append
      ((sortDescBy_perm Dataset.date (datasetsOf es)).map _)).append
      ((sortAsc_perm pageSortKey (pagesOf es)).map _)
  have hstep : sitesFromJson (sitesBuild es t1 t2 t3 t4 t5 t6 t7).toJson =
      Sites.init ((sitesBuild es t1 t2 t3 t4 t5 t6 t7).toJson.list_of_entities.map
        objectFromJson) true t1 t2 t3 t4 t5 t6 t7 := rfl
  rw [hstep, sites_init_ok_of_nodup _ t1 t2 t3 t4 t5 t6 t7 hnodup2]
  have hPs : sortAsc pageSortKey (sortAsc pageSortKey (pagesOf es)) =
      sortAsc pageSortKey (pagesOf es) :=
    sortAsc_of_sorted _ _ (sortAsc_pairwise _ _)
  have hAs : sortDescBy Article.date (sortDescBy Article.date (articlesOf es)) =
      sortDescBy Article.date (articlesOf es) :=
    sortDescBy_of_sorted _ _ (sortDescBy_pairwise _ _)
  have hDs : sortDescBy Dataset.date (sortDescBy Dataset.date (datasetsOf es)) =
      sortDescBy Dataset.date (datasetsOf es) :=
    sortDescBy_of_sorted _ _ (sortDescBy_pairwise _ _)
  have hbuild : ∀ es2 : List SiteEntity, pagesOf es2 = sortAsc pageSortKey (pagesOf es) →
      articlesOf es2 = sortDescBy Article.date (articlesOf es) →
      datasetsOf es2 = sortDescBy Dataset.date (datasetsOf es) →
      sitesBuild es2 t1 t2 t3 t4 t5 t6 t7 = sitesBuild es t1 t2 t3 t4 t5 t6 t7 := by
    intro es2 h1 h2 h3
    unfold sitesBuild
    rw [h1, h2, h3, hPs, hAs, hDs]
  rw [hbuild _ hP hA hD]
  rfl

/-- C8, witness: the round trip evaluated on a two-entity site (one page,
one article with a tag). -/
theorem C8_json_roundtrip_witness :
    (sitesFromJson (sitesBuild entsC8 "h" "i" "j" "k" "l" "m" "n").toJson).map
        Sites.toJson =
      Except.ok ((sitesBuild entsC8 "h" "i" "j" "k" "l" "m" "n").toJson) :=
  C8_json_roundtrip entsC8 "h" "i" "j" "k" "l" "m" "n"
    (sitesBuild entsC8 "h" "i" "j" "k" "l" "m" "n") (by rfl)

end Crinita
